import Mathlib

/-!
Shallow embedding of the two-layer fact-retrieval module
`apps/api-server/app/services/fact_retrieval.py`.

Modelling conventions:
* Python dicts that flow through the resolver are finite association lists
  over a small value type `PyVal` (string / int / bool / dict / list).
* Each backend (`retrieve_from_wikipedia`, `retrieve_from_tavily`) is a
  network call; a single `retrieve_facts` call invokes each backend at most
  once, so the network is modelled by the value that call would return
  (`Backends`).  The raw HTTP-level outcomes (timeouts, malformed JSON,
  missing credentials, ...) are modelled separately by `WikiOutcome` /
  `TavilyOutcome` together with the wrapper functions that translate them
  to `Option Dict` exactly as the `try/except` blocks of the source do.
* `retrieve_facts` additionally returns the list of layers it queried, in
  call order, so that "queries exactly this source" claims are statable.
-/

/-- Python-like JSON-ish values stored in the payload dictionaries. -/
inductive PyVal where
  | str (s : String)
  | num (n : Int)
  | boolean (b : Bool)
  | obj (fields : List (String × PyVal))
  | arr (xs : List PyVal)

/-- A Python dict as used by the module: an association list (keys unique
in all dicts the module builds). -/
abbrev Dict := List (String × PyVal)

/-- Python `d.get(k)`: first binding of `k`, `none` when the key is absent. -/
def dictGet (d : Dict) (k : String) : Option PyVal :=
  match d with
  | [] => none
  | (k2, v) :: rest => if k2 = k then some v else dictGet rest k

/-- Python `d.get(k, default)`. -/
def dictGetD (d : Dict) (k : String) (v0 : PyVal) : PyVal :=
  (dictGet d k).getD v0

/-- Python `k in d`. -/
def hasKey (d : Dict) (k : String) : Bool :=
  (dictGet d k).isSome

/-- Python truthiness of a `PyVal` (empty string/dict/list, `0`, `False`
are falsy). -/
def pyValTruthy : PyVal → Bool
  | .str s => !s.isEmpty
  | .num n => n != 0
  | .boolean b => b
  | .obj fs => !fs.isEmpty
  | .arr xs => !xs.isEmpty

/-- Python truthiness of `d.get(k)` (absent key gives `None`, falsy). -/
def pyGetTruthy (d : Dict) (k : String) : Bool :=
  match dictGet d k with
  | some v => pyValTruthy v
  | none => false

/-- Python `len` on the sized values the module measures (only ever applied
to strings by the resolver; other cases are unreachable there). -/
def pyLen : PyVal → Nat
  | .str s => s.length
  | .obj fs => fs.length
  | .arr xs => xs.length
  | _ => 0

/-- Python truthiness of an `Optional[Dict]` (`None` and `{}` are falsy):
the test `if data:` of the source. -/
def pyTruthy : Option Dict → Bool
  | some d => !d.isEmpty
  | none => false

/-- The `RetrievalLayer` enum of the source. -/
inductive RetrievalLayer where
  | wikipedia
  | brave
  | tavily
deriving DecidableEq, Repr

/-- The string value of a `RetrievalLayer` (Python `layer.value`). -/
def RetrievalLayer.value : RetrievalLayer → String
  | .wikipedia => "wikipedia"
  | .brave => "brave"
  | .tavily => "tavily"

/-- The `FactRetrievalResult` class of the source (field `data` is the payload). -/
structure FactRetrievalResult where
  success : Bool
  data : Dict
  layerUsed : RetrievalLayer
  confidence : String
  needsVerification : Bool

/-- Source expression `len(wiki_data.get("summary", ""))`. -/
def summaryLen (d : Dict) : Nat :=
  pyLen (dictGetD d "summary" (PyVal.str ""))

/-- Simple-topic trigger substrings of `determine_complexity`. -/
def simple_indicators : List String :=
  ["what is", "who is", "definition of", "meaning of", "explain",
   "describe", "introduction to"]

/-- Complex-topic trigger substrings of `determine_complexity`. -/
def complex_indicators : List String :=
  ["compare", "contrast", "why", "analyze", "evaluate", "pros and cons",
   "advantages and disadvantages", "debate", "controversy", "impact",
   "implications", "recent", "latest", "current", "2024", "2025", "2026"]

/-- Whether `needle` starts `haystack` (char-list version, executable). -/
def charsStartWith : List Char → List Char → Bool
  | [], _ => true
  | _ :: _, [] => false
  | c :: cs, d :: ds => c = d && charsStartWith cs ds

/-- Whether `needle` occurs contiguously in `haystack`. -/
def charsContain (needle : List Char) : List Char → Bool
  | [] => needle.isEmpty
  | c :: rest => charsStartWith needle (c :: rest) || charsContain needle rest

/-- Python substring containment `needle in haystack`. -/
def containsSub (needle haystack : String) : Bool :=
  charsContain needle.toList haystack.toList

/-- Python `s.lower()` (character-wise lowering; the trigger lists are
ASCII, where this agrees with Python). -/
def pyLower (s : String) : String :=
  String.mk (s.toList.map Char.toLower)

/-- Python `s.upper()` (character-wise raising; the module only upper-cases
the ASCII layer / confidence labels, where this agrees with Python). -/
def pyUpper (s : String) : String :=
  String.mk (s.toList.map Char.toUpper)

/-- Source function `determine_complexity(query, context)` (the context
argument is accepted and ignored, as in the source). -/
def determine_complexity (query : String) (context : Dict) : String :=
  let query_lower := pyLower query
  if complex_indicators.any (fun i => containsSub i query_lower) then "complex"
  else if simple_indicators.any (fun i => containsSub i query_lower) then "simple"
  else "moderate"

/-! ### Backend wrappers

`retrieve_from_wikipedia` / `retrieve_from_tavily` perform network calls
inside a `try/except` that converts every failure to `None`.  The possible
outcomes of the underlying interaction are modelled as inductives; the
wrapper functions below translate them exactly as the source's exception
handlers do. -/

/-- Outcome of the Wikipedia HTTP interaction of `retrieve_from_wikipedia`:
either both requests succeeded and produced the response fields used to
build the payload, or one of the failure modes its handlers catch. -/
inductive WikiOutcome where
  | okFields (title extract url ty : String)
  | noSearchHits
  | requestExc
  | jsonDecodeExc
  | otherExc
deriving DecidableEq, Repr

/-- Source function `retrieve_from_wikipedia(query, max_chars)`: on success builds the
five-field payload (`summary` is `extract[:max_chars]`); the empty search
result and every caught exception yield `None`. -/
def retrieve_from_wikipedia (query : String) (o : WikiOutcome)
    (max_chars : Nat) : Option Dict :=
  match o with
  | .okFields title extract url ty =>
      some [("title", PyVal.str title),
            ("summary", PyVal.str (extract.take max_chars)),
            ("url", PyVal.str url),
            ("source", PyVal.str "Wikipedia"),
            ("type", PyVal.str ty)]
  | .noSearchHits => none
  | .requestExc => none
  | .jsonDecodeExc => none
  | .otherExc => none

/-- Source function `retrieve_from_brave(query)`: disabled for MVP, returns `None`
unconditionally. -/
def retrieve_from_brave (query : String) : Option Dict :=
  none

/-- Outcome of the Tavily client interaction of `retrieve_from_tavily`. -/
inductive TavilyOutcome where
  | okFields (results : List PyVal) (answer : String)
  | missingApiKey
  | raisedExc

/-- Source function `retrieve_from_tavily(query)`: missing `TAVILY_API_KEY` or any raised
exception yields `None`; success builds the five-field payload. -/
def retrieve_from_tavily (query : String) (o : TavilyOutcome) : Option Dict :=
  match o with
  | .okFields results answer =>
      some [("results", PyVal.arr results),
            ("query", PyVal.str query),
            ("source", PyVal.str "Tavily"),
            ("answer", PyVal.str answer),
            ("count", PyVal.num results.length)]
  | .missingApiKey => none
  | .raisedExc => none

/-! ### The resolver -/

/-- What each backend's single call inside one `retrieve_facts` invocation
returns (each backend is called at most once per invocation, so its return
value fully describes the network for that call). -/
structure Backends where
  wikipediaReturn : Option Dict
  tavilyReturn : Option Dict

/-- The SIMPLE-strategy sufficiency test of the source:
`wiki_data and len(wiki_data.get("summary", "")) > 100`. -/
def wikiSufficient (wd : Option Dict) : Bool :=
  pyTruthy wd && decide (100 < summaryLen (wd.getD []))

/-- Source function `retrieve_facts(query, context, force_layer)`, paired
with the list of layers it queried, in call order.  `env` supplies what
the (at most one) call to each backend returns. -/
def retrieve_facts (query : String) (context : Dict)
    (force_layer : Option RetrievalLayer) (env : Backends) :
    FactRetrievalResult × List RetrievalLayer :=
  let complexity := determine_complexity query context
  match force_layer with
  | some RetrievalLayer.wikipedia =>
      let data := env.wikipediaReturn
      if pyTruthy data then
        (⟨true, data.getD [], RetrievalLayer.wikipedia, "high", false⟩,
         [RetrievalLayer.wikipedia])
      else
        (⟨false, [], RetrievalLayer.wikipedia, "low", false⟩,
         [RetrievalLayer.wikipedia])
  | some RetrievalLayer.brave =>
      let data := retrieve_from_brave query
      if pyTruthy data then
        (⟨true, data.getD [], RetrievalLayer.brave, "medium", false⟩,
         [RetrievalLayer.brave])
      else
        (⟨false, [], RetrievalLayer.brave, "low", false⟩,
         [RetrievalLayer.brave])
  | some RetrievalLayer.tavily =>
      let data := env.tavilyReturn
      if pyTruthy data then
        (⟨true, data.getD [], RetrievalLayer.tavily, "high", false⟩,
         [RetrievalLayer.tavily])
      else
        (⟨false, [], RetrievalLayer.tavily, "low", false⟩,
         [RetrievalLayer.tavily])
  | none =>
    if complexity = "simple" then
      let wiki_data := env.wikipediaReturn
      if wikiSufficient wiki_data then
        (⟨true, wiki_data.getD [], RetrievalLayer.wikipedia, "high", false⟩,
         [RetrievalLayer.wikipedia])
      else
        let tavily_data := env.tavilyReturn
        if pyTruthy tavily_data then
          (⟨true, tavily_data.getD [], RetrievalLayer.tavily, "high", false⟩,
           [RetrievalLayer.wikipedia, RetrievalLayer.tavily])
        else
          (⟨false, [], RetrievalLayer.wikipedia, "none", true⟩,
           [RetrievalLayer.wikipedia, RetrievalLayer.tavily])
    else if complexity = "moderate" then
      let wiki_data := env.wikipediaReturn
      if pyTruthy wiki_data then
        let tavily_data := env.tavilyReturn
        if pyTruthy tavily_data then
          (⟨true,
            [("primary", PyVal.obj (wiki_data.getD [])),
             ("synthesis", PyVal.obj (tavily_data.getD [])),
             ("combined", PyVal.boolean true)],
            RetrievalLayer.tavily, "high", false⟩,
           [RetrievalLayer.wikipedia, RetrievalLayer.tavily])
        else
          (⟨true, wiki_data.getD [], RetrievalLayer.wikipedia, "medium", true⟩,
           [RetrievalLayer.wikipedia, RetrievalLayer.tavily])
      else
        let tavily_data := env.tavilyReturn
        if pyTruthy tavily_data then
          (⟨true, tavily_data.getD [], RetrievalLayer.tavily, "medium", false⟩,
           [RetrievalLayer.wikipedia, RetrievalLayer.tavily])
        else
          (⟨false, [], RetrievalLayer.wikipedia, "none", true⟩,
           [RetrievalLayer.wikipedia, RetrievalLayer.tavily])
    else if complexity = "complex" then
      let wiki_data := env.wikipediaReturn
      let tavily_data := env.tavilyReturn
      if pyTruthy tavily_data then
        (⟨true,
          [("primary",
            if pyTruthy wiki_data then PyVal.obj (wiki_data.getD [])
            else PyVal.obj []),
           ("synthesis", PyVal.obj (tavily_data.getD [])),
           ("combined", PyVal.boolean true)],
          RetrievalLayer.tavily, "high", false⟩,
         [RetrievalLayer.wikipedia, RetrievalLayer.tavily])
      else if pyTruthy wiki_data then
        (⟨true, wiki_data.getD [], RetrievalLayer.wikipedia, "low", true⟩,
         [RetrievalLayer.wikipedia, RetrievalLayer.tavily])
      else
        (⟨false, [], RetrievalLayer.wikipedia, "none", true⟩,
         [RetrievalLayer.wikipedia, RetrievalLayer.tavily])
    else
      -- unreachable: `determine_complexity` only returns the three strings
      (⟨false, [], RetrievalLayer.wikipedia, "none", true⟩, [])

/-- The resolver composed with the backend wrappers: one `retrieve_facts`
call against raw backend outcomes (`max_chars` takes its default 1000). -/
def run_retrieve_facts (query : String) (context : Dict)
    (force_layer : Option RetrievalLayer)
    (w : WikiOutcome) (t : TavilyOutcome) :
    FactRetrievalResult × List RetrievalLayer :=
  retrieve_facts query context force_layer
    ⟨retrieve_from_wikipedia query w 1000, retrieve_from_tavily query t⟩

/-! ### Formatting for the LLM -/

mutual
/-- Python `json.dumps(v, indent=2)` modelled as a canonical serialization of the
value (the exact whitespace of Python's pretty-printer is immaterial to
the formatter's contract; only which values get dumped matters). -/
def jsonDumps : PyVal → String
  | .str s => "\"" ++ s ++ "\""
  | .num n => toString n
  | .boolean b => if b then "true" else "false"
  | .obj fs => "\x7b" ++ String.intercalate ", " (jsonDumpsFields fs) ++ "\x7d"
  | .arr xs => "[" ++ String.intercalate ", " (jsonDumpsArr xs) ++ "]"

/-- Serializations of an object's fields, in order. -/
def jsonDumpsFields : List (String × PyVal) → List String
  | [] => []
  | (k, v) :: rest => ("\"" ++ k ++ "\": " ++ jsonDumps v) :: jsonDumpsFields rest

/-- Serializations of an array's elements, in order. -/
def jsonDumpsArr : List PyVal → List String
  | [] => []
  | v :: rest => jsonDumps v :: jsonDumpsArr rest
end

/-- Rendering of a value inside an f-string (Python `str()`); the module
only ever interpolates strings here. -/
def pyStr : PyVal → String
  | .str s => s
  | v => jsonDumps v

/-- Python `v.get(k, "")` rendered as text, where `v` is the nested dict stored
under `primary` (always a dict in payloads the module builds). -/
def pyObjGetStr (v : PyVal) (k : String) : String :=
  match v with
  | .obj fs => pyStr (dictGetD fs k (PyVal.str ""))
  | _ => ""

/-- Source function `format_for_llm(result)`. -/
def format_for_llm (result : FactRetrievalResult) : String :=
  if !result.success then ""
  else
    let formatted :=
      "\n📚 VERIFIED FACTS (Source: " ++ pyUpper result.layerUsed.value ++ "):\n"
    let formatted := formatted ++ "Confidence: " ++ pyUpper result.confidence ++ "\n\n"
    let data := result.data
    let formatted :=
      if hasKey data "primary" && hasKey data "combined" then
        let formatted :=
          if pyGetTruthy data "primary" then
            formatted ++ "Primary Source (Wikipedia):\n" ++
              pyObjGetStr (dictGetD data "primary" (PyVal.str "")) "summary" ++ "\n\n"
          else formatted
        if pyGetTruthy data "synthesis" then
          formatted ++ "Synthesis (Tavily):\n" ++
            jsonDumps (dictGetD data "synthesis" (PyVal.str "")) ++ "\n"
        else formatted
      else if hasKey data "summary" then
        formatted ++ pyStr (dictGetD data "summary" (PyVal.str "")) ++ "\n" ++
          "Source URL: " ++ pyStr (dictGetD data "url" (PyVal.str "")) ++ "\n"
      else if hasKey data "results" then
        formatted ++ jsonDumps (PyVal.obj data)
      else formatted
    if result.needsVerification then
      formatted ++ "\n⚠️ WARNING: This data needs additional verification.\n"
    else formatted

/-! Named pieces of the formatted output, used to state the formatter's
structure. -/

/-- The source/confidence header every successful formatting starts with. -/
def llmHeader (result : FactRetrievalResult) : String :=
  "\n📚 VERIFIED FACTS (Source: " ++ pyUpper result.layerUsed.value ++ "):\n" ++
    "Confidence: " ++ pyUpper result.confidence ++ "\n\n"

/-- The labeled primary section of a combined payload. -/
def llmPrimarySection (data : Dict) : String :=
  "Primary Source (Wikipedia):\n" ++
    pyObjGetStr (dictGetD data "primary" (PyVal.str "")) "summary" ++ "\n\n"

/-- The labeled synthesis section of a combined payload. -/
def llmSynthesisSection (data : Dict) : String :=
  "Synthesis (Tavily):\n" ++ jsonDumps (dictGetD data "synthesis" (PyVal.str "")) ++ "\n"

/-- The single-source (Wikipedia payload) body. -/
def llmSummaryBody (data : Dict) : String :=
  pyStr (dictGetD data "summary" (PyVal.str "")) ++ "\n" ++
    "Source URL: " ++ pyStr (dictGetD data "url" (PyVal.str "")) ++ "\n"

/-- The verification warning line. -/
def llmWarningLine : String :=
  "\n⚠️ WARNING: This data needs additional verification.\n"

/-- The suffix appended under `if result.needs_verification:`. -/
def llmWarnPart (result : FactRetrievalResult) : String :=
  if result.needsVerification then llmWarningLine else ""

/-- A copy of a result with the `needs_verification` flag replaced. -/
def withNeedsVerification (r : FactRetrievalResult) (b : Bool) :
    FactRetrievalResult :=
  ⟨r.success, r.data, r.layerUsed, r.confidence, b⟩

/-! ## Theorems -/

/-- Helper: `determine_complexity` always returns one of the three complexity
strings. -/
theorem determine_complexity_cases (q : String) (c : Dict) :
    determine_complexity q c = "complex" ∨ determine_complexity q c = "simple" ∨
      determine_complexity q c = "moderate" := by
  by_cases h1 : complex_indicators.any (fun i => containsSub i (pyLower q)) = true
  · exact Or.inl (by simp [determine_complexity, h1])
  by_cases h2 : simple_indicators.any (fun i => containsSub i (pyLower q)) = true
  · exact Or.inr (Or.inl (by simp [determine_complexity, h1, h2]))
  · exact Or.inr (Or.inr (by simp [determine_complexity, h1, h2]))

/-- C3: if the lower-cased query contains a complex-trigger substring,
`determine_complexity` returns `"complex"` (even when a simple trigger is
also present); if it contains a simple trigger and no complex trigger it
returns `"simple"`; if it matches neither list it returns `"moderate"`. -/
theorem C3_classifier_precedence (q : String) (c : Dict) :
    (complex_indicators.any (fun i => containsSub i (pyLower q)) = true →
      determine_complexity q c = "complex") ∧
    (complex_indicators.any (fun i => containsSub i (pyLower q)) = false →
      simple_indicators.any (fun i => containsSub i (pyLower q)) = true →
      determine_complexity q c = "simple") ∧
    (complex_indicators.any (fun i => containsSub i (pyLower q)) = false →
      simple_indicators.any (fun i => containsSub i (pyLower q)) = false →
      determine_complexity q c = "moderate") := by
  refine ⟨fun h1 => by simp [determine_complexity, h1],
    fun h1 h2 => by simp [determine_complexity, h1, h2],
    fun h1 h2 => by simp [determine_complexity, h1, h2]⟩

/-- Witness for C3 on a query containing both a complex trigger
(`"compare"`) and a simple trigger (`"what is"`). -/
theorem C3_classifier_precedence_witness :
    determine_complexity "Compare what is X" [] = "complex" :=
  (C3_classifier_precedence "Compare what is X" []).1 (by decide)

/-- C2: with a forced layer, `retrieve_facts` queries exactly that layer
(and no other), for every query and environment; the result's confidence
is `"high"` on success and `"low"` on failure.  (For the disabled Brave
layer success is impossible, so the success clause is vacuous there.) -/
theorem C2_force_layer (q : String) (c : Dict) (X : RetrievalLayer)
    (env : Backends) :
    (retrieve_facts q c (some X) env).2 = [X] ∧
    ((retrieve_facts q c (some X) env).1.success = true →
      (retrieve_facts q c (some X) env).1.confidence = "high") ∧
    ((retrieve_facts q c (some X) env).1.success = false →
      (retrieve_facts q c (some X) env).1.confidence = "low") := by
  cases X
  case wikipedia =>
    by_cases h : pyTruthy env.wikipediaReturn <;> simp [retrieve_facts, h]
  case brave =>
    simp [retrieve_facts, retrieve_from_brave, pyTruthy]
  case tavily =>
    by_cases h : pyTruthy env.tavilyReturn <;> simp [retrieve_facts, h]

/-- Witness for C2: forcing Tavily with a succeeding Tavily backend yields
confidence high. -/
theorem C2_force_layer_witness :
    (retrieve_facts "x" [] (some RetrievalLayer.tavily)
        ⟨none, some [("a", PyVal.str "b")]⟩).1.confidence = "high" :=
  ((C2_force_layer "x" [] RetrievalLayer.tavily
      ⟨none, some [("a", PyVal.str "b")]⟩).2.1) (by decide)

/-- C1 counterexample: on the force path a failed result has confidence
`"low"` and `needs_verification = false`, not confidence `"none"` and
`needs_verification = true` as the claim asserts for every failed result. -/
theorem C1_counterexample :
    ((retrieve_facts "x" [] (some RetrievalLayer.tavily) ⟨none, none⟩).1.success
        = false) ∧
    ¬(((retrieve_facts "x" [] (some RetrievalLayer.tavily)
          ⟨none, none⟩).1.confidence = "none") ∧
      ((retrieve_facts "x" [] (some RetrievalLayer.tavily)
          ⟨none, none⟩).1.needsVerification = true)) := by
  decide

/-- C1 amended: every failed result has an empty payload; when no layer is
forced a failed result additionally has confidence `"none"` and
`needs_verification = true`; on the force path a failed result instead has
confidence `"low"` and `needs_verification = false`. -/
theorem C1_amended_failure_fields (q : String) (c : Dict)
    (f : Option RetrievalLayer) (env : Backends) :
    ((retrieve_facts q c f env).1.success = false →
      (retrieve_facts q c f env).1.data = []) ∧
    (f = none → (retrieve_facts q c f env).1.success = false →
      (retrieve_facts q c f env).1.confidence = "none" ∧
      (retrieve_facts q c f env).1.needsVerification = true) ∧
    (∀ fl, f = some fl → (retrieve_facts q c f env).1.success = false →
      (retrieve_facts q c f env).1.confidence = "low" ∧
      (retrieve_facts q c f env).1.needsVerification = false) := by
  rcases f with _ | fl
  · rcases determine_complexity_cases q c with h | h | h <;>
      by_cases hw : pyTruthy env.wikipediaReturn <;>
      by_cases ht : pyTruthy env.tavilyReturn <;>
      by_cases hs : 100 < summaryLen (env.wikipediaReturn.getD []) <;>
      simp [retrieve_facts, wikiSufficient, h, hw, ht, hs]
  · cases fl
    case wikipedia =>
      by_cases hw : pyTruthy env.wikipediaReturn <;> simp [retrieve_facts, hw]
    case brave =>
      simp [retrieve_facts, retrieve_from_brave, pyTruthy]
    case tavily =>
      by_cases ht : pyTruthy env.tavilyReturn <;> simp [retrieve_facts, ht]

/-- Witness for C1 amended: with no force layer and both backends failing,
the failed result carries confidence `"none"` and the verification flag. -/
theorem C1_amended_failure_fields_witness :
    (retrieve_facts "x" [] none ⟨none, none⟩).1.confidence = "none" ∧
    (retrieve_facts "x" [] none ⟨none, none⟩).1.needsVerification = true :=
  (C1_amended_failure_fields "x" [] none ⟨none, none⟩).2.1 rfl (by decide)

/-- C8: `layer_used` always names a layer that was queried during the
call, and in the global failure case of the adaptive strategies (no forced
layer, `success = false`) it is the fixed Wikipedia (PRIMARY) label. -/
theorem C8_source_used_queried (q : String) (c : Dict)
    (f : Option RetrievalLayer) (env : Backends) :
    (retrieve_facts q c f env).1.layerUsed ∈ (retrieve_facts q c f env).2 ∧
    (f = none → (retrieve_facts q c f env).1.success = false →
      (retrieve_facts q c f env).1.layerUsed = RetrievalLayer.wikipedia) := by
  rcases f with _ | fl
  · rcases determine_complexity_cases q c with h | h | h <;>
      by_cases hw : pyTruthy env.wikipediaReturn <;>
      by_cases ht : pyTruthy env.tavilyReturn <;>
      by_cases hs : 100 < summaryLen (env.wikipediaReturn.getD []) <;>
      simp [retrieve_facts, wikiSufficient, h, hw, ht, hs]
  · cases fl
    case wikipedia =>
      by_cases hw : pyTruthy env.wikipediaReturn <;> simp [retrieve_facts, hw]
    case brave =>
      simp [retrieve_facts, retrieve_from_brave, pyTruthy]
    case tavily =>
      by_cases ht : pyTruthy env.tavilyReturn <;> simp [retrieve_facts, ht]

/-- Witness for C8: a failing non-forced call labels the failure with the
Wikipedia layer, which is a member of its query log. -/
theorem C8_source_used_queried_witness :
    (retrieve_facts "x" [] none ⟨none, none⟩).1.layerUsed
      = RetrievalLayer.wikipedia :=
  (C8_source_used_queried "x" [] none ⟨none, none⟩).2 rfl (by decide)

/-- C4: for a query classified `"simple"` with no forced layer — if the
Wikipedia call passes the sufficiency test (truthy payload with summary
longer than 100 characters) the result is Wikipedia/high/no-verification
and no other layer is queried; otherwise the call escalates directly to
Tavily (Brave is never queried), and on Tavily success the result is
Tavily/high/no-verification. -/
theorem C4_simple_strategy (q : String) (c : Dict) (env : Backends)
    (h : determine_complexity q c = "simple") :
    (wikiSufficient env.wikipediaReturn = true →
      (retrieve_facts q c none env).1 =
        ⟨true, env.wikipediaReturn.getD [], RetrievalLayer.wikipedia,
         "high", false⟩ ∧
      (retrieve_facts q c none env).2 = [RetrievalLayer.wikipedia]) ∧
    (wikiSufficient env.wikipediaReturn = false →
      (retrieve_facts q c none env).2 =
        [RetrievalLayer.wikipedia, RetrievalLayer.tavily] ∧
      (pyTruthy env.tavilyReturn = true →
        (retrieve_facts q c none env).1 =
          ⟨true, env.tavilyReturn.getD [], RetrievalLayer.tavily,
           "high", false⟩)) := by
  constructor
  · intro hcond
    simp [retrieve_facts, h, hcond]
  · intro hcond
    by_cases ht : pyTruthy env.tavilyReturn <;>
      simp [retrieve_facts, h, hcond, ht]

/-- Witness for C4: a simple query whose Wikipedia summary has 101
characters is answered from Wikipedia alone with high confidence. -/
theorem C4_simple_strategy_witness :
    (retrieve_facts "what is ai" [] none
        ⟨some [("summary",
            PyVal.str "0123456789012345678901234567890123456789012345678901234567890123456789012345678901234567890123456789X")],
          none⟩).1.confidence = "high" := by
  have h :=
    ((C4_simple_strategy "what is ai" []
        ⟨some [("summary",
            PyVal.str "0123456789012345678901234567890123456789012345678901234567890123456789012345678901234567890123456789X")],
          none⟩ (by decide)).1 (by decide)).1
  rw [h]

/-- C5: for a query classified `"moderate"` with no forced layer — the
result's confidence is `"high"` exactly when both backends returned truthy
data (and then the payload is the combined one, attributed to Tavily);
Wikipedia-only success gives Wikipedia/medium/needs-verification;
Wikipedia failure with Tavily success gives Tavily/medium/no-verification. -/
theorem C5_moderate_strategy (q : String) (c : Dict) (env : Backends)
    (h : determine_complexity q c = "moderate") :
    ((retrieve_facts q c none env).1.confidence = "high" ↔
      pyTruthy env.wikipediaReturn = true ∧ pyTruthy env.tavilyReturn = true) ∧
    (pyTruthy env.wikipediaReturn = true → pyTruthy env.tavilyReturn = true →
      (retrieve_facts q c none env).1 =
        ⟨true,
         [("primary", PyVal.obj (env.wikipediaReturn.getD [])),
          ("synthesis", PyVal.obj (env.tavilyReturn.getD [])),
          ("combined", PyVal.boolean true)],
         RetrievalLayer.tavily, "high", false⟩) ∧
    (pyTruthy env.wikipediaReturn = true → pyTruthy env.tavilyReturn = false →
      (retrieve_facts q c none env).1 =
        ⟨true, env.wikipediaReturn.getD [], RetrievalLayer.wikipedia,
         "medium", true⟩) ∧
    (pyTruthy env.wikipediaReturn = false → pyTruthy env.tavilyReturn = true →
      (retrieve_facts q c none env).1 =
        ⟨true, env.tavilyReturn.getD [], RetrievalLayer.tavily,
         "medium", false⟩) := by
  by_cases hw : pyTruthy env.wikipediaReturn <;>
    by_cases ht : pyTruthy env.tavilyReturn <;>
    simp [retrieve_facts, h, hw, ht]

/-- Witness for C5: a moderate query with both backends succeeding yields
the combined result with high confidence. -/
theorem C5_moderate_strategy_witness :
    (retrieve_facts "computer generations timeline" [] none
        ⟨some [("summary", PyVal.str "w")],
          some [("results", PyVal.arr [])]⟩).1.confidence = "high" :=
  ((C5_moderate_strategy "computer generations timeline" []
      ⟨some [("summary", PyVal.str "w")],
        some [("results", PyVal.arr [])]⟩ (by decide)).1).mpr
    ⟨by decide, by decide⟩

/-- C6: for a query classified `"complex"` with no forced layer — both
backends are queried unconditionally; if Tavily returns truthy data the
result is the combined payload (Wikipedia's payload when truthy, else the
empty dict) attributed to Tavily with high confidence and no verification
flag; if Tavily fails but Wikipedia returned truthy data the result is
Wikipedia/low/needs-verification. -/
theorem C6_complex_strategy (q : String) (c : Dict) (env : Backends)
    (h : determine_complexity q c = "complex") :
    (retrieve_facts q c none env).2 =
      [RetrievalLayer.wikipedia, RetrievalLayer.tavily] ∧
    (pyTruthy env.tavilyReturn = true →
      (retrieve_facts q c none env).1 =
        ⟨true,
         [("primary",
           if pyTruthy env.wikipediaReturn then
             PyVal.obj (env.wikipediaReturn.getD [])
           else PyVal.obj []),
          ("synthesis", PyVal.obj (env.tavilyReturn.getD [])),
          ("combined", PyVal.boolean true)],
         RetrievalLayer.tavily, "high", false⟩) ∧
    (pyTruthy env.tavilyReturn = false → pyTruthy env.wikipediaReturn = true →
      (retrieve_facts q c none env).1 =
        ⟨true, env.wikipediaReturn.getD [], RetrievalLayer.wikipedia,
         "low", true⟩) := by
  by_cases hw : pyTruthy env.wikipediaReturn <;>
    by_cases ht : pyTruthy env.tavilyReturn <;>
    simp [retrieve_facts, h, hw, ht]

/-- Witness for C6 (Scenario C shape): a complex query where Wikipedia
succeeds and Tavily fails is answered from Wikipedia with low confidence
and the verification flag set. -/
theorem C6_complex_strategy_witness :
    (retrieve_facts "compare quantum computing vs classical computing" [] none
        ⟨some [("summary", PyVal.str "data")], none⟩).1 =
      ⟨true, [("summary", PyVal.str "data")], RetrievalLayer.wikipedia,
       "low", true⟩ :=
  (C6_complex_strategy "compare quantum computing vs classical computing" []
      ⟨some [("summary", PyVal.str "data")], none⟩ (by decide)).2.2
    (by decide) (by decide)

/-- C10: the SIMPLE-strategy sufficiency test is a strict `> 100`
comparison on `wiki_data.get("summary", "")`: whenever the Wikipedia call
returns a payload whose summary has at most 100 characters (in particular
exactly 100, or when the `summary` key is absent, where the default `""`
has length 0), the resolver escalates to Tavily even though the Wikipedia
call succeeded, and the outcome is then decided by Tavily alone. -/
theorem C10_simple_threshold_strict (q : String) (c : Dict) (d : Dict)
    (env : Backends)
    (h : determine_complexity q c = "simple")
    (hw : env.wikipediaReturn = some d)
    (hlen : summaryLen d ≤ 100) :
    (retrieve_facts q c none env).2 =
      [RetrievalLayer.wikipedia, RetrievalLayer.tavily] ∧
    (pyTruthy env.tavilyReturn = true →
      (retrieve_facts q c none env).1 =
        ⟨true, env.tavilyReturn.getD [], RetrievalLayer.tavily,
         "high", false⟩) ∧
    (pyTruthy env.tavilyReturn = false →
      (retrieve_facts q c none env).1 =
        ⟨false, [], RetrievalLayer.wikipedia, "none", true⟩) := by
  have hcond : wikiSufficient env.wikipediaReturn = false := by
    simp [wikiSufficient, hw, Nat.not_lt.2 hlen]
  by_cases ht : pyTruthy env.tavilyReturn <;>
    simp [retrieve_facts, h, hcond, ht]

/-- Witness for C10: a truthy Wikipedia payload whose summary has exactly
100 characters is treated as insufficient — the call escalates and ends
with Tavily's answer. -/
theorem C10_simple_threshold_strict_witness :
    (retrieve_facts "what is ai" [] none
        ⟨some [("summary",
            PyVal.str "0123456789012345678901234567890123456789012345678901234567890123456789012345678901234567890123456789")],
          some [("answer", PyVal.str "a")]⟩).1 =
      ⟨true, [("answer", PyVal.str "a")], RetrievalLayer.tavily,
       "high", false⟩ :=
  (C10_simple_threshold_strict "what is ai" []
      [("summary",
        PyVal.str "0123456789012345678901234567890123456789012345678901234567890123456789012345678901234567890123456789")]
      ⟨some [("summary",
          PyVal.str "0123456789012345678901234567890123456789012345678901234567890123456789012345678901234567890123456789")],
        some [("answer", PyVal.str "a")]⟩
      (by decide) rfl (by decide)).2.1 (by decide)

/-- Canonicalization of a Wikipedia outcome: success is kept, every
failure mode is collapsed to one canonical caught exception. -/
def normalizeWikiOutcome : WikiOutcome → WikiOutcome
  | .okFields title extract url ty => .okFields title extract url ty
  | _ => .otherExc

/-- Canonicalization of a Tavily outcome: success is kept, every failure
mode is collapsed to one canonical caught exception. -/
def normalizeTavilyOutcome : TavilyOutcome → TavilyOutcome
  | .okFields results answer => .okFields results answer
  | _ => .raisedExc

/-- C7: every backend-level failure (no search hits, HTTP error/timeout,
non-JSON body, missing credential, any raised exception) is caught inside
the backend wrapper and normalized to `None` ("no data"), and the resolver
is insensitive to which failure mode occurred: its result (a total
function into `FactRetrievalResult`, so no exception crosses the
`retrieve_facts` boundary in the embedding) is unchanged when each
failure is replaced by a canonical caught exception. -/
theorem C7_backend_failures_contained (q : String) :
    (∀ m : Nat,
      retrieve_from_wikipedia q WikiOutcome.noSearchHits m = none ∧
      retrieve_from_wikipedia q WikiOutcome.requestExc m = none ∧
      retrieve_from_wikipedia q WikiOutcome.jsonDecodeExc m = none ∧
      retrieve_from_wikipedia q WikiOutcome.otherExc m = none) ∧
    (retrieve_from_tavily q TavilyOutcome.missingApiKey = none ∧
     retrieve_from_tavily q TavilyOutcome.raisedExc = none) ∧
    (∀ (c : Dict) (f : Option RetrievalLayer) (w : WikiOutcome)
        (t : TavilyOutcome),
      run_retrieve_facts q c f w t =
        run_retrieve_facts q c f (normalizeWikiOutcome w)
          (normalizeTavilyOutcome t)) := by
  refine ⟨fun m => ⟨rfl, rfl, rfl, rfl⟩, ⟨rfl, rfl⟩, fun c f w t => ?_⟩
  cases w <;> cases t <;> rfl

/-- C9 counterexample: a reachable successful result with a combined
`{primary, synthesis, combined}` payload (complex strategy, Wikipedia
failed) whose formatting does not render the primary section — the claim
that both sections are always rendered for combined payloads is false. -/
theorem C9_counterexample :
    ((retrieve_facts "compare a vs b" [] none
        ⟨none, some [("answer", PyVal.str "syn")]⟩).1.success = true) ∧
    (hasKey (retrieve_facts "compare a vs b" [] none
        ⟨none, some [("answer", PyVal.str "syn")]⟩).1.data "primary" = true) ∧
    (hasKey (retrieve_facts "compare a vs b" [] none
        ⟨none, some [("answer", PyVal.str "syn")]⟩).1.data "combined" = true) ∧
    (containsSub "Primary Source (Wikipedia):"
        (format_for_llm (retrieve_facts "compare a vs b" [] none
          ⟨none, some [("answer", PyVal.str "syn")]⟩).1) = false) := by
  decide

/-- C9 amended: `format_for_llm` is a pure function of the result; it
returns exactly `""` on every failed result; on a successful result with
a combined payload (keys `primary` and `combined` present) it renders the
labeled primary section iff the primary part is truthy and the labeled
synthesis section iff the synthesis part is truthy (so a combined payload
whose primary part is the empty dict renders only the synthesis section);
on a successful single-source payload it renders the payload text — the
summary text and source URL when a `summary` key is present, else the
JSON dump of the whole payload when a `results` key is present (the
Tavily/Brave payload shape); and the verification warning line is
appended iff `needs_verification` is true, the rest of the output being
independent of that flag. -/
theorem C9_amended_format :
    (∀ r : FactRetrievalResult, r.success = false → format_for_llm r = "") ∧
    (∀ r : FactRetrievalResult, r.success = true →
      hasKey r.data "primary" = true → hasKey r.data "combined" = true →
      format_for_llm r =
        llmHeader r ++
          (if pyGetTruthy r.data "primary" = true then llmPrimarySection r.data
           else "") ++
          (if pyGetTruthy r.data "synthesis" = true then
            llmSynthesisSection r.data
           else "") ++
          llmWarnPart r) ∧
    (∀ r : FactRetrievalResult, r.success = true →
      (hasKey r.data "primary" && hasKey r.data "combined") = false →
      hasKey r.data "summary" = true →
      format_for_llm r = llmHeader r ++ llmSummaryBody r.data ++ llmWarnPart r) ∧
    (∀ r : FactRetrievalResult, r.success = true →
      (hasKey r.data "primary" && hasKey r.data "combined") = false →
      hasKey r.data "summary" = false →
      hasKey r.data "results" = true →
      format_for_llm r =
        llmHeader r ++ jsonDumps (PyVal.obj r.data) ++ llmWarnPart r) ∧
    (∀ r : FactRetrievalResult, r.success = true →
      format_for_llm (withNeedsVerification r true) =
        format_for_llm (withNeedsVerification r false) ++ llmWarningLine) := by
  refine ⟨fun r h => by simp [format_for_llm, h], ?_, ?_, ?_, ?_⟩
  · intro r hs hp hc
    by_cases h1 : pyGetTruthy r.data "primary" <;>
      by_cases h2 : pyGetTruthy r.data "synthesis" <;>
      by_cases h3 : r.needsVerification <;>
      simp [format_for_llm, llmHeader, llmPrimarySection, llmSynthesisSection,
        llmWarnPart, llmWarningLine, hs, hp, hc, h1, h2, h3,
        String.append_assoc, String.append_empty, -String.reduceAppend]
  · intro r hs hk hsum
    by_cases h3 : r.needsVerification <;>
      simp [format_for_llm, llmHeader, llmSummaryBody, llmWarnPart,
        llmWarningLine, hs, hk, hsum, h3, String.append_assoc,
        String.append_empty, -String.reduceAppend]
  · intro r hs hk hsum hres
    by_cases h3 : r.needsVerification <;>
      simp [format_for_llm, llmHeader, llmWarnPart, llmWarningLine,
        hs, hk, hsum, hres, h3, String.append_assoc, String.append_empty,
        -String.reduceAppend]
  · intro r hs
    simp [format_for_llm, withNeedsVerification, llmWarningLine, hs]

/-- Witness for C9 amended: formatting a failed result gives the empty
string. -/
theorem C9_amended_format_witness :
    format_for_llm ⟨false, [], RetrievalLayer.wikipedia, "none", true⟩ = "" :=
  C9_amended_format.1 ⟨false, [], RetrievalLayer.wikipedia, "none", true⟩ rfl
